import Mathlib

/-!
Verification of the pgcat admin control surface (src/admin.rs) against its
specification.  The Rust code is shallowly embedded: byte buffers are
`List Nat` (each element < 256 in practice), fallible paths return explicit
outcome types, and Rust panics (buffer over-reads, usize subtraction
overflow, out-of-range slicing) are a distinguished `panicked` outcome so
that crash behaviour is part of the model rather than hidden by it.
-/

namespace Pgcat

/-! ## Integers

`beU32` is the big-endian 32-bit read performed by `BytesMut.get_i32`;
`i32AsUsize` models the Rust cast `as usize` applied to that `i32` on a
64-bit platform: non-negative values pass through, negative values are
sign-extended, i.e. mapped to `2^64 - 2^32 + v`. -/

def beU32 (b1 b2 b3 b4 : Nat) : Nat :=
  ((b1 * 256 + b2) * 256 + b3) * 256 + b4

def i32AsUsize (v : Nat) : Nat :=
  if v < 2 ^ 31 then v else 2 ^ 64 - 2 ^ 32 + v

/-! ## UTF-8 lossy decoding

Models `String::from_utf8_lossy` from the Rust standard library: valid
UTF-8 sequences decode to their scalar values, each maximal invalid
subpart is replaced by U+FFFD, and decoding resumes at the first byte
after the accepted prefix.  The function is total by construction. -/

def replChar : Char := Char.ofNat 0xFFFD

/-- Decoder state: either at a sequence boundary, or inside a multi-byte
sequence with `acc` the accumulated scalar bits, `need` continuation bytes
still required, and `lo ≤ byte ≤ hi` the admissible range for the next
byte (the range differs from `80..BF` only right after `E0`, `ED`, `F0`,
`F4`, per the UTF-8 well-formedness table). -/
inductive Utf8State where
  | start
  | cont (acc : Nat) (need : Nat) (lo : Nat) (hi : Nat)

/-- Classify byte `b` at a sequence boundary: either it is a complete
1-byte char, the head of a longer sequence, or invalid (U+FFFD). -/
def utf8Step (b : Nat) : Utf8State × Option Char :=
  if b ≤ 127 then (.start, some (Char.ofNat b))
  else if 194 ≤ b && b ≤ 223 then (.cont (b - 192) 1 128 191, none)
  else if b == 224 then (.cont 0 2 160 191, none)
  else if (225 ≤ b && b ≤ 236) || (238 ≤ b && b ≤ 239) then
    (.cont (b - 224) 2 128 191, none)
  else if b == 237 then (.cont 13 2 128 159, none)
  else if b == 240 then (.cont 0 3 144 191, none)
  else if 241 ≤ b && b ≤ 243 then (.cont (b - 240) 3 128 191, none)
  else if b == 244 then (.cont 4 3 128 143, none)
  else (.start, some replChar)

def utf8LossyAux : Utf8State → List Nat → List Char
  | .start, [] => []
  | .cont _ _ _ _, [] => [replChar]
  | .start, b :: rest =>
    match utf8Step b with
    | (st, some c) => c :: utf8LossyAux st rest
    | (st, none) => utf8LossyAux st rest
  | .cont acc need lo hi, b :: rest =>
    if lo ≤ b && b ≤ hi then
      if need == 1 then Char.ofNat (acc * 64 + (b - 128)) :: utf8LossyAux .start rest
      else utf8LossyAux (.cont (acc * 64 + (b - 128)) (need - 1) 128 191) rest
    else
      match utf8Step b with
      | (st, some c) => replChar :: c :: utf8LossyAux st rest
      | (st, none) => replChar :: utf8LossyAux st rest

def utf8Lossy (l : List Nat) : List Char := utf8LossyAux .start l

/-- Models `u8::to_ascii_uppercase` mapped over a string
(`str::to_ascii_uppercase`): only ASCII `a`..`z` are shifted. -/
def asciiUpperChar (c : Char) : Char :=
  if 97 ≤ c.toNat && c.toNat ≤ 122 then Char.ofNat (c.toNat - 32) else c

/-! ## Error taxonomy (errors.rs via the spec, §7) -/

inductive Error where
  | ProtocolSyncError
  | QueryDecodeError
  | ConfigError (msg : String)
deriving DecidableEq

/-! ## The admin query decode step (admin.rs, `handle_admin` lines 19-28)

```rust
let code = query.get_u8() as char;
if code != 'Q' { return Err(Error::ProtocolSyncError); }
let len = query.get_i32() as usize;
let query = String::from_utf8_lossy(&query[..len - 5])
    .to_string()
    .to_ascii_uppercase();
```

`get_u8` on an empty buffer and `get_i32` on a buffer with fewer than four
remaining bytes panic; `len - 5` is a usize subtraction that panics
(overflow in debug, wrapped huge index hence slice panic in release) when
`len < 5`; the slice `&query[..len - 5]` panics when `len - 5` exceeds the
remaining byte count.  All of these are modelled as `panicked`. -/

inductive Decoded where
  | ok (query : String)
  | err (e : Error)
  | panicked (msg : String)
deriving DecidableEq

def parse_query (b : List Nat) : Decoded :=
  match b with
  | [] => .panicked "advance past end of buffer"
  | code :: rest =>
    if code ≠ 81 then .err .ProtocolSyncError
    else
      match rest with
      | b1 :: b2 :: b3 :: b4 :: payload =>
        let len : Nat := i32AsUsize (beU32 b1 b2 b3 b4)
        if len < 5 then .panicked "attempt to subtract with overflow"
        else if payload.length < len - 5 then
          .panicked "range end index out of range for slice"
        else .ok (String.mk ((utf8Lossy (payload.take (len - 5))).map asciiUpperChar))
      | _ => .panicked "advance past end of buffer"

/-! ## Dispatch (admin.rs, `handle_admin` lines 32-49) -/

inductive AdminCmd where
  | ShowStats
  | Reload
  | ShowConfig
  | ShowDatabases
  | IgnoreSet
  | Unsupported
deriving DecidableEq

/-- Models `str::starts_with`: Rust tests byte-prefix on UTF-8, which is
equivalent to char-sequence prefix since UTF-8 is a prefix-preserving
code. -/
def starts_with (s pre : String) : Bool := pre.data.isPrefixOf s.data

def dispatch_admin (q : String) : AdminCmd :=
  if starts_with q "SHOW STATS" then .ShowStats
  else if starts_with q "RELOAD" then .Reload
  else if starts_with q "SHOW CONFIG" then .ShowConfig
  else if starts_with q "SHOW DATABASES" then .ShowDatabases
  else if starts_with q "SET " then .IgnoreSet
  else .Unsupported

/-- The fixed ordered command list of the specification (§4.2). -/
def admin_command_order : List (String × AdminCmd) :=
  [("SHOW STATS", .ShowStats), ("RELOAD", .Reload), ("SHOW CONFIG", .ShowConfig),
   ("SHOW DATABASES", .ShowDatabases), ("SET ", .IgnoreSet)]

/-- Spec-side dispatcher: first prefix match wins, in list order. -/
def first_prefix_match (q : String) : AdminCmd :=
  match admin_command_order.find? (fun p => starts_with q p.1) with
  | some p => p.2
  | none => .Unsupported

/-! ## Data model (shapes used by admin.rs from config.rs / pool.rs / stats.rs) -/

inductive Role where
  | Primary
  | Replica
deriving DecidableEq

structure Address where
  role : Role
  host : String
  port : Nat
deriving DecidableEq

structure PoolState where
  connections : Nat
deriving DecidableEq

structure ServerEntry where
  address : Address
  state : PoolState
deriving DecidableEq

structure General where
  pool_size : Nat
  pool_mode : String
deriving DecidableEq

/-- The slice of the config snapshot that admin.rs reads.  `shard_databases`
models `config.shards` (a map keyed by the decimal shard index; per the
spec §3 invariant, shard indices are contiguous from 0, so a list indexed
by shard is the same data). -/
structure Config where
  path : Option String
  shard_databases : List String
  user_name : String
  general : General
deriving DecidableEq

/-- The pool topology visible through `pool.shards()`, `pool.servers(shard)`,
`pool.address(shard, server)` and `pool.pool_state(shard, server)`. -/
structure ConnectionPool where
  shard_servers : List (List ServerEntry)
deriving DecidableEq

/-! ## Protocol messages (messages.rs encoders, abstracted to message level)

admin.rs builds responses by concatenating encoded messages into one
buffer and performing a single write.  The claims are about the message
sequences, so the embedding records the abstract messages written, in
order, rather than their byte-level encodings. -/

inductive DataType where
  | Text
  | Int4
  | Numeric
deriving DecidableEq

inductive Msg where
  | RowDescription (cols : List (String × DataType))
  | DataRow (vals : List String)
  | CommandComplete (tag : String)
  | ReadyForQuery (status : Char)
  | ErrorResponse (msg : String)
deriving DecidableEq

/-- The idle status byte written by admin.rs as `put_u8(b'Z'); put_i32(5);
put_u8(b'I')`. -/
def idle : Char := 'I'

/-! ## SHOW DATABASES (admin.rs, `show_databases`) -/

def database_columns : List (String × DataType) :=
  [("name", .Text), ("host", .Text), ("port", .Text), ("database", .Text),
   ("force_user", .Text), ("pool_size", .Int4), ("min_pool_size", .Int4),
   ("reserve_pool", .Int4), ("pool_mode", .Text), ("max_connections", .Int4),
   ("current_connections", .Int4), ("paused", .Int4), ("disabled", .Int4)]

/-- One `data_row` of SHOW DATABASES, for a server displayed under `name`. -/
def server_row (cfg : Config) (dbName : String) (name : String)
    (s : ServerEntry) : List String :=
  [name, s.address.host, toString s.address.port, dbName, cfg.user_name,
   toString cfg.general.pool_size, "0", "0", cfg.general.pool_mode,
   toString cfg.general.pool_size, toString s.state.connections, "0", "0"]

/-- The inner server loop of `show_databases`: `rc` is the running
`replica_count`, reset to 0 at the start of each shard and incremented
exactly when a Replica is displayed. -/
def shard_rows (cfg : Config) (dbName : String) (shard : Nat) (rc : Nat) :
    List ServerEntry → List (List String)
  | [] => []
  | s :: rest =>
    match s.address.role with
    | .Primary =>
      server_row cfg dbName ("shard_" ++ toString shard ++ "_primary") s ::
        shard_rows cfg dbName shard rc rest
    | .Replica =>
      server_row cfg dbName
          ("shard_" ++ toString shard ++ "_replica_" ++ toString rc) s ::
        shard_rows cfg dbName shard (rc + 1) rest

/-- All SHOW DATABASES data rows, shards in index order.  The lookup
`config.shards[&shard.to_string()].database` is `getD` here; the spec §3
invariant (contiguous shard keys) makes the default unreachable. -/
def show_databases_rows (cfg : Config) (pool : ConnectionPool) :
    List (List String) :=
  (pool.shard_servers.enum.map (fun p =>
    shard_rows cfg (cfg.shard_databases.getD p.1 "") p.1 0 p.2)).flatten

def show_databases (cfg : Config) (pool : ConnectionPool) : List Msg :=
  Msg.RowDescription database_columns ::
    (show_databases_rows cfg pool).map Msg.DataRow ++
    [.CommandComplete "SHOW", .ReadyForQuery idle]

/-! ## SHOW CONFIG (admin.rs, `show_config`) -/

/-- "Configs that cannot be changed dynamically." -/
def immutables : List String := ["host", "port", "connect_timeout"]

/-- `if immutables.iter().filter(|col| *col == &key).count() == 1 { "no" }
else { "yes" }`. -/
def changeable_for (key : String) : String :=
  if (immutables.filter (fun col => col == key)).length == 1 then "no"
  else "yes"

def config_columns : List (String × DataType) :=
  [("key", .Text), ("value", .Text), ("default", .Text), ("changeable", .Text)]

/-- `entries` is the flattened config `HashMap<String, String>`; the Rust
iteration order over the map is whatever order the list carries. -/
def show_config (entries : List (String × String)) : List Msg :=
  Msg.RowDescription config_columns ::
    entries.map (fun kv => Msg.DataRow [kv.1, kv.2, "-", changeable_for kv.1]) ++
    [.CommandComplete "SHOW", .ReadyForQuery idle]

/-! ## SHOW STATS (admin.rs, `show_stats`) -/

def stats_columns : List (String × DataType) :=
  [("database", .Text),
   ("total_xact_count", .Numeric), ("total_query_count", .Numeric),
   ("total_received", .Numeric), ("total_sent", .Numeric),
   ("total_xact_time", .Numeric), ("total_query_time", .Numeric),
   ("total_wait_time", .Numeric),
   ("avg_xact_count", .Numeric), ("avg_query_count", .Numeric),
   ("avg_recv", .Numeric), ("avg_sent", .Numeric),
   ("avg_xact_time", .Numeric), ("avg_query_time", .Numeric),
   ("avg_wait_time", .Numeric)]

/-- The single data row: `"all shards"` followed by
`stats.get(column.0).unwrap_or(&0).to_string()` for each column after the
first.  `stats` is the aggregator snapshot, a name-to-value map. -/
def show_stats_row (stats : String → Option Int) : List String :=
  "all shards" :: (stats_columns.drop 1).map (fun c => toString ((stats c.1).getD 0))

def show_stats (stats : String → Option Int) : List Msg :=
  [Msg.RowDescription stats_columns, .DataRow (show_stats_row stats),
   .CommandComplete "SHOW", .ReadyForQuery idle]

/-! ## RELOAD (admin.rs, `reload`) -/

inductive Outcome where
  | ok
  | err (e : Error)
  | panicked (msg : String)
deriving DecidableEq

/-- The RELOAD handler.  admin.rs does:
`let path = config.path.clone().unwrap(); parse(&path).await?;` then writes
CommandComplete("RELOAD") and ReadyForQuery(idle).  `unwrap` on a `None`
path panics.  `parse` lives in config.rs, which is not under src/;
modelled from the spec (§4.4): on success it atomically publishes the
newly parsed snapshot as the current config, on failure the store is
unchanged and the error is returned to the caller.  The abstract argument
`parse` gives, per path, the result of reading and validating that file.
The triple returned is (outcome, current config afterwards, messages
written). -/
def reload (parse : String → Except String Config) (cfg : Config) :
    Outcome × Config × List Msg :=
  match cfg.path with
  | none => (.panicked "called Option::unwrap on a None value", cfg, [])
  | some path =>
    match parse path with
    | .error e => (.err (.ConfigError e), cfg, [])
    | .ok newCfg =>
      (.ok, newCfg, [.CommandComplete "RELOAD", .ReadyForQuery idle])

/-! ## SET and unsupported queries -/

/-- Modelled from the spec (§4.2, §8): `custom_protocol_response_ok` is in
messages.rs, not under src/; a successful completion answer is
CommandComplete with the given tag followed by ReadyForQuery(idle). -/
def custom_protocol_response_ok (tag : String) : List Msg :=
  [Msg.CommandComplete tag, .ReadyForQuery idle]

def ignore_set : List Msg := custom_protocol_response_ok "SET"

/-- Modelled from the spec (§4.2, §7, §8): `error_response` is in
messages.rs, not under src/; it emits exactly one ErrorResponse carrying
the message followed by one ReadyForQuery(idle) and returns Ok, keeping
the connection open. -/
def error_response (msg : String) : List Msg :=
  [Msg.ErrorResponse msg, .ReadyForQuery idle]

/-! ## The full admin exchange (admin.rs, `handle_admin`) -/

/-- Everything `handle_admin` can observe: the stats snapshot, the pool
topology, the current config snapshot, its flattening to key/value pairs
(`config.into()`), and the config-file parse results. -/
structure AdminEnv where
  stats : String → Option Int
  pool : ConnectionPool
  config : Config
  config_entries : List (String × String)
  parse : String → Except String Config

/-- Run the handler selected by the dispatcher.  Returns the outcome, the
config snapshot current after the exchange, and the messages written. -/
def run_command (env : AdminEnv) : AdminCmd → Outcome × Config × List Msg
  | .ShowStats => (.ok, env.config, show_stats env.stats)
  | .Reload => reload env.parse env.config
  | .ShowConfig => (.ok, env.config, show_config env.config_entries)
  | .ShowDatabases => (.ok, env.config, show_databases env.config env.pool)
  | .IgnoreSet => (.ok, env.config, ignore_set)
  | .Unsupported =>
    (.ok, env.config, error_response "Unsupported query against the admin database")

/-- One admin exchange: decode, dispatch, run the handler. -/
def handle_admin (env : AdminEnv) (b : List Nat) : Outcome × Config × List Msg :=
  match parse_query b with
  | .panicked m => (.panicked m, env.config, [])
  | .err e => (.err e, env.config, [])
  | .ok q => run_command env (dispatch_admin q)

/-! ## Derived helpers used by the theorems -/

/-- The placeholder server used as `getD` default in statements; every use
is guarded by an in-bounds hypothesis. -/
def dummy_server : ServerEntry := ⟨⟨.Primary, "", 0⟩, ⟨0⟩⟩

/-- The number of Replicas strictly before position `j` in a server list:
the 0-indexed replica ordinal of the server at `j` when that server is a
Replica. -/
def replicas_before (servers : List ServerEntry) (j : Nat) : Nat :=
  ((servers.take j).filter (fun s => s.address.role == .Replica)).length

/-- The name the specification assigns to the server at position `j` of
shard `i`'s server list. -/
def expected_name (i : Nat) (servers : List ServerEntry) (j : Nat) : String :=
  match (servers.getD j dummy_server).address.role with
  | .Primary => "shard_" ++ toString i ++ "_primary"
  | .Replica => "shard_" ++ toString i ++ "_replica_" ++ toString (replicas_before servers j)

/-- The counter list exactly as the specification enumerates it (§4.2). -/
def claimed_counters : List String :=
  ["total_xact_count", "total_query_count", "total_received", "total_sent",
   "total_xact_time", "total_query_time", "total_wait_time",
   "avg_xact_count", "avg_query_count", "avg_recv", "avg_sent",
   "avg_xact_time", "avg_query_time", "avg_wait_time"]

def is_data_row : Msg → Bool
  | .DataRow _ => true
  | _ => false

/-! ## Sample data for closed instantiations -/

def sample_general : General := { pool_size := 5, pool_mode := "transaction" }

def sample_config : Config :=
  { path := some "/etc/pgcat.toml", shard_databases := ["db0"],
    user_name := "admin", general := sample_general }

def other_config : Config := { sample_config with user_name := "other" }

def pathless_config : Config := { sample_config with path := none }

def sample_pool : ConnectionPool :=
  { shard_servers := [[⟨⟨.Primary, "127.0.0.1", 5432⟩, ⟨1⟩⟩,
                       ⟨⟨.Replica, "127.0.0.1", 5433⟩, ⟨0⟩⟩]] }

def sample_env : AdminEnv :=
  { stats := fun _ => none, pool := sample_pool, config := sample_config,
    config_entries := [("host", "0.0.0.0")], parse := fun _ => .ok sample_config }

/-- The Simple-Query framing of `SELECT 1`: tag Q, length 13, text, NUL. -/
def select_one_bytes : List Nat :=
  [81, 0, 0, 0, 13, 83, 69, 76, 69, 67, 84, 32, 49, 0]

/-! ## Supporting lemmas -/

theorem shard_rows_length (cfg : Config) (dbName : String) (i rc : Nat)
    (servers : List ServerEntry) :
    (shard_rows cfg dbName i rc servers).length = servers.length := by
  induction servers generalizing rc with
  | nil => rfl
  | cons s rest ih =>
    cases hs : s.address.role <;> simp [shard_rows, hs, ih]

theorem replicas_before_cons_primary (s : ServerEntry) (rest : List ServerEntry)
    (j : Nat) (hs : s.address.role = .Primary) :
    replicas_before (s :: rest) (j + 1) = replicas_before rest j := by
  unfold replicas_before
  rw [List.take_succ_cons, List.filter_cons]
  have hb : (s.address.role == Role.Replica) = false := by rw [hs]; rfl
  simp [hb]

theorem replicas_before_cons_replica (s : ServerEntry) (rest : List ServerEntry)
    (j : Nat) (hs : s.address.role = .Replica) :
    replicas_before (s :: rest) (j + 1) = replicas_before rest j + 1 := by
  unfold replicas_before
  rw [List.take_succ_cons, List.filter_cons]
  have hb : (s.address.role == Role.Replica) = true := by rw [hs]; rfl
  simp [hb]

theorem shard_rows_getD (cfg : Config) (dbName : String) (i : Nat)
    (servers : List ServerEntry) (rc j : Nat) (h : j < servers.length) :
    (shard_rows cfg dbName i rc servers).getD j [] =
      server_row cfg dbName
        (match (servers.getD j dummy_server).address.role with
         | .Primary => "shard_" ++ toString i ++ "_primary"
         | .Replica =>
           "shard_" ++ toString i ++ "_replica_" ++
             toString (rc + replicas_before servers j))
        (servers.getD j dummy_server) := by
  induction servers generalizing rc j with
  | nil => simp at h
  | cons s rest ih =>
    cases j with
    | zero =>
      cases hs : s.address.role <;>
        simp [shard_rows, hs, replicas_before, List.getD]
    | succ j =>
      have hj : j < rest.length := by simpa using h
      cases hs : s.address.role with
      | Primary =>
        simp only [shard_rows, hs, List.getD_cons_succ]
        rw [replicas_before_cons_primary s rest j hs]
        exact ih rc j hj
      | Replica =>
        simp only [shard_rows, hs, List.getD_cons_succ]
        rw [replicas_before_cons_replica s rest j hs]
        have e : rc + (replicas_before rest j + 1) = rc + 1 + replicas_before rest j := by
          omega
        rw [e]
        exact ih (rc + 1) j hj

theorem parse_query_ok_shape (b : List Nat) (q : String) (h : parse_query b = .ok q) :
    ∃ raw, q = String.mk ((utf8Lossy raw).map asciiUpperChar) := by
  unfold parse_query at h
  split at h
  · exact absurd h (by simp)
  · split at h
    · exact absurd h (by simp)
    · split at h
      · dsimp only [] at h
        split at h
        · exact absurd h (by simp)
        · split at h
          · exact absurd h (by simp)
          · cases h
            exact ⟨_, rfl⟩
      · exact absurd h (by simp)

theorem dispatch_eq_first_match (q : String) :
    dispatch_admin q = first_prefix_match q := by
  unfold dispatch_admin first_prefix_match admin_command_order
  simp only [List.find?]
  cases h1 : starts_with q "SHOW STATS" <;>
    cases h2 : starts_with q "RELOAD" <;>
      cases h3 : starts_with q "SHOW CONFIG" <;>
        cases h4 : starts_with q "SHOW DATABASES" <;>
          cases h5 : starts_with q "SET " <;>
            simp [h1, h2, h3, h4, h5]

/-! ## Claims -/

/-- C1: the claim states that the admin query decode step terminates with a
query string or a defined failure for every input, never panicking — in
particular for inputs shorter than 5 bytes, for a declared length smaller
than 5, and for a declared length exceeding the bytes present.  The code
violates this: it panics in exactly those situations.  This theorem
evaluates the embedded decode at one failing input of each kind: the empty
input and a 1-byte input (buffer over-read in `get_u8`/`get_i32`), a
declared length of 0 (usize subtraction overflow in `len - 5`), and a
declared length of 99 with two payload bytes (out-of-range slice). -/
theorem c1_decode_panics_on_malformed_framing :
    parse_query [] = .panicked "advance past end of buffer" ∧
    parse_query [81] = .panicked "advance past end of buffer" ∧
    parse_query [81, 0, 0, 0, 0] = .panicked "attempt to subtract with overflow" ∧
    parse_query [81, 0, 0, 0, 99, 65, 0] =
      .panicked "range end index out of range for slice" :=
  ⟨by decide, by decide, by decide, by decide⟩

/-- C2: counterexample.  The claim states that a well-framed admin query
message whose payload is not valid text fails the decode with
`QueryDecodeError`.  In the code the payload goes through
`String::from_utf8_lossy`, which never fails: this well-framed message
with the invalid byte 0xFF decodes to a query string (the replacement
character), not to a failure. -/
theorem c2_invalid_text_decodes_ok :
    parse_query [81, 0, 0, 0, 6, 255, 0] = .ok (String.mk [replChar]) := by
  decide

/-- C2 (amended): for every well-framed admin query message (tag Q,
declared length at least 5, at least `length - 5` payload bytes), the
decode step returns a query string without crashing, regardless of whether
the payload is valid text: invalid sequences are replaced by U+FFFD by the
lossy conversion rather than surfaced as a `QueryDecodeError`. -/
theorem c2_wellframed_decode_is_lossy (b1 b2 b3 b4 : Nat) (payload : List Nat)
    (h5 : 5 ≤ i32AsUsize (beU32 b1 b2 b3 b4))
    (hlen : i32AsUsize (beU32 b1 b2 b3 b4) - 5 ≤ payload.length) :
    parse_query (81 :: b1 :: b2 :: b3 :: b4 :: payload) =
      .ok (String.mk ((utf8Lossy
        (payload.take (i32AsUsize (beU32 b1 b2 b3 b4) - 5))).map asciiUpperChar)) := by
  unfold parse_query
  simp only [ne_eq, not_true_eq_false, if_false, ite_false]
  rw [if_neg (by omega), if_neg (by omega)]

theorem c2_wellframed_decode_is_lossy_witness :
    5 ≤ i32AsUsize (beU32 0 0 0 6) ∧
    i32AsUsize (beU32 0 0 0 6) - 5 ≤ ([255, 0] : List Nat).length ∧
    parse_query (81 :: 0 :: 0 :: 0 :: 6 :: [255, 0]) =
      .ok (String.mk ((utf8Lossy (([255, 0] : List Nat).take
        (i32AsUsize (beU32 0 0 0 6) - 5))).map asciiUpperChar)) :=
  ⟨by decide, by decide,
   c2_wellframed_decode_is_lossy 0 0 0 6 [255, 0] (by decide) (by decide)⟩

/-- C3: the dispatcher tests the decoded (uppercased) query text by prefix
against the fixed ordered list SHOW STATS, RELOAD, SHOW CONFIG, SHOW
DATABASES, `SET ` — first match wins — and the exchange invokes the
handler of the first matching prefix; dispatch is a pure function of the
query text, and every successfully decoded query string is the
ASCII-uppercasing of the lossily decoded payload text. -/
theorem c3_dispatch_first_prefix_match :
    (∀ q : String, dispatch_admin q = first_prefix_match q) ∧
    (∀ (env : AdminEnv) (b : List Nat) (q : String), parse_query b = .ok q →
      handle_admin env b = run_command env (first_prefix_match q)) ∧
    (∀ (b : List Nat) (q : String), parse_query b = .ok q →
      ∃ raw, q = String.mk ((utf8Lossy raw).map asciiUpperChar)) := by
  refine ⟨dispatch_eq_first_match, ?_, parse_query_ok_shape⟩
  intro env b q h
  simp only [handle_admin, h]
  rw [dispatch_eq_first_match]

theorem c3_dispatch_first_prefix_match_witness :
    (dispatch_admin "SELECT 1" = first_prefix_match "SELECT 1") ∧
    (handle_admin sample_env select_one_bytes =
      run_command sample_env (first_prefix_match "SELECT 1")) ∧
    ∃ raw, ("SELECT 1" : String) = String.mk ((utf8Lossy raw).map asciiUpperChar) :=
  ⟨c3_dispatch_first_prefix_match.1 "SELECT 1",
   c3_dispatch_first_prefix_match.2.1 sample_env select_one_bytes "SELECT 1" (by decide),
   c3_dispatch_first_prefix_match.2.2 select_one_bytes "SELECT 1" (by decide)⟩

/-- C4: for a RELOAD exchange whose re-parse of the configuration fails,
the current snapshot is left unchanged, the error is propagated, and no
response bytes at all are written; on success the new snapshot is
published and exactly one CommandComplete("RELOAD") followed by one
ReadyForQuery(idle) is written.  (`parse` itself is modelled from the
spec, §4.4.) -/
theorem c4_reload_failure_and_success (parse : String → Except String Config)
    (cfg : Config) (p : String) (hp : cfg.path = some p) :
    (∀ e, parse p = .error e →
      reload parse cfg = (.err (.ConfigError e), cfg, [])) ∧
    (∀ newCfg, parse p = .ok newCfg →
      reload parse cfg =
        (.ok, newCfg, [.CommandComplete "RELOAD", .ReadyForQuery idle])) := by
  constructor <;> intro x hx <;> simp [reload, hp, hx]

theorem c4_reload_failure_and_success_witness :
    reload (fun _ => .error "bad toml") sample_config =
      (.err (.ConfigError "bad toml"), sample_config, []) ∧
    reload (fun _ => .ok other_config) sample_config =
      (.ok, other_config, [.CommandComplete "RELOAD", .ReadyForQuery idle]) :=
  ⟨(c4_reload_failure_and_success (fun _ => .error "bad toml") sample_config
      "/etc/pgcat.toml" rfl).1 "bad toml" rfl,
   (c4_reload_failure_and_success (fun _ => .ok other_config) sample_config
      "/etc/pgcat.toml" rfl).2 other_config rfl⟩

/-- C5: the SHOW DATABASES server loop emits one row per server in list
order, and the server at position `j` of shard `i`'s list is named
`shard_i_primary` when it is the Primary and `shard_i_replica_r` when it
is a Replica, `r` being its 0-indexed ordinal among the Replicas in list
order — so one Primary and `k` Replicas yield `shard_i_primary,
shard_i_replica_0, …, shard_i_replica_(k-1)`.  `shard_rows … 0` is a pure
function of the topology, so repeated invocations produce the same names
(idempotent, side-effect-free). -/
theorem c5_show_databases_naming (cfg : Config) (dbName : String) (i : Nat)
    (servers : List ServerEntry) (j : Nat) (h : j < servers.length) :
    (shard_rows cfg dbName i 0 servers).length = servers.length ∧
    (shard_rows cfg dbName i 0 servers).getD j [] =
      server_row cfg dbName (expected_name i servers j)
        (servers.getD j dummy_server) := by
  refine ⟨shard_rows_length cfg dbName i 0 servers, ?_⟩
  rw [shard_rows_getD cfg dbName i servers 0 j h]
  unfold expected_name
  cases hr : (servers.getD j dummy_server).address.role <;> simp [hr]

theorem c5_show_databases_naming_witness :
    (shard_rows sample_config "db0" 0 0 (sample_pool.shard_servers.getD 0 [])).length =
      (sample_pool.shard_servers.getD 0 []).length ∧
    (shard_rows sample_config "db0" 0 0 (sample_pool.shard_servers.getD 0 [])).getD 1 [] =
      server_row sample_config "db0"
        (expected_name 0 (sample_pool.shard_servers.getD 0 []) 1)
        ((sample_pool.shard_servers.getD 0 []).getD 1 dummy_server) :=
  c5_show_databases_naming sample_config "db0" 0
    (sample_pool.shard_servers.getD 0 []) 1 (by decide)

/-- C6: a decoded query matching none of the recognized prefixes yields
exactly one ErrorResponse (the fixed unsupported-query message) followed
by exactly one ReadyForQuery(idle); the outcome is Ok — not an error — so
the connection is not torn down and, the exchange being stateless, remains
usable for subsequent admin queries. -/
theorem c6_unsupported_query (env : AdminEnv) (b : List Nat) (q : String)
    (hq : parse_query b = .ok q) (hd : dispatch_admin q = .Unsupported) :
    handle_admin env b =
      (.ok, env.config,
       [Msg.ErrorResponse "Unsupported query against the admin database",
        .ReadyForQuery idle]) := by
  simp only [handle_admin, hq]
  rw [hd]
  rfl

theorem c6_unsupported_query_witness :
    handle_admin sample_env select_one_bytes =
      (.ok, sample_env.config,
       [Msg.ErrorResponse "Unsupported query against the admin database",
        .ReadyForQuery idle]) :=
  c6_unsupported_query sample_env select_one_bytes "SELECT 1" (by decide) (by decide)

/-- C7: the `changeable` column emitted by SHOW CONFIG is `"no"` exactly
for the keys `host`, `port`, `connect_timeout`, and `"yes"` for every
other key. -/
theorem c7_changeable_iff (key : String) :
    (changeable_for key = "no" ↔
      (key = "host" ∨ key = "port" ∨ key = "connect_timeout")) ∧
    (changeable_for key = "yes" ↔
      ¬(key = "host" ∨ key = "port" ∨ key = "connect_timeout")) := by
  by_cases h1 : key = "host"
  · subst h1; constructor <;> simp [changeable_for, immutables, List.filter]
  · by_cases h2 : key = "port"
    · subst h2; constructor <;> simp [changeable_for, immutables, List.filter]
    · by_cases h3 : key = "connect_timeout"
      · subst h3; constructor <;> simp [changeable_for, immutables, List.filter]
      · have e1 : ("host" == key) = false :=
          beq_eq_false_iff_ne.mpr (fun hh => h1 hh.symm)
        have e2 : ("port" == key) = false :=
          beq_eq_false_iff_ne.mpr (fun hh => h2 hh.symm)
        have e3 : ("connect_timeout" == key) = false :=
          beq_eq_false_iff_ne.mpr (fun hh => h3 hh.symm)
        constructor <;>
          simp [changeable_for, immutables, List.filter, e1, e2, e3, h1, h2, h3]

/-- C8: SHOW STATS emits exactly one data row, whose first column is
`"all shards"` and whose remaining columns are the fourteen counters in
the claimed order, each read from the stats snapshot with a default of 0
when the counter name is absent. -/
theorem c8_show_stats_defaults (stats : String → Option Int) :
    (show_stats stats).filter is_data_row = [Msg.DataRow (show_stats_row stats)] ∧
    show_stats_row stats =
      "all shards" :: claimed_counters.map (fun n => toString ((stats n).getD 0)) ∧
    ∀ n : String, stats n = none → toString ((stats n).getD 0) = "0" := by
  refine ⟨rfl, rfl, ?_⟩
  intro n hn
  rw [hn]
  rfl

theorem c8_show_stats_defaults_witness :
    ((show_stats (fun _ => none)).filter is_data_row =
      [Msg.DataRow (show_stats_row (fun _ => none))]) ∧
    toString (((fun _ => (none : Option Int)) "total_xact_count").getD 0) = "0" :=
  ⟨(c8_show_stats_defaults (fun _ => none)).1,
   (c8_show_stats_defaults (fun _ => none)).2.2 "total_xact_count" rfl⟩

/-- C9: an admin message whose first byte is not the Simple-Query tag `Q`
makes `handle_admin` return `ProtocolSyncError` with no handler invoked
and no message written; per the spec (§4.2, §7) the caller treats this
returned error as fatal and tears the connection down. -/
theorem c9_protocol_sync_error (env : AdminEnv) (b0 : Nat) (rest : List Nat)
    (h : b0 ≠ 81) :
    handle_admin env (b0 :: rest) = (.err .ProtocolSyncError, env.config, []) := by
  have hp : parse_query (b0 :: rest) = .err .ProtocolSyncError := by
    unfold parse_query
    dsimp only []
    rw [if_pos h]
  simp only [handle_admin, hp]

theorem c9_protocol_sync_error_witness :
    handle_admin sample_env (88 :: []) =
      (.err .ProtocolSyncError, sample_env.config, []) :=
  c9_protocol_sync_error sample_env 88 [] (by decide)

/-- C10: a RELOAD exchange against a snapshot whose stored path is `None`
panics at `config.path.clone().unwrap()` instead of returning an error;
when the snapshot carries a path, `reload` never panics (it returns Ok or
a propagated error). -/
theorem c10_reload_unwrap_panic (parse : String → Except String Config)
    (cfg : Config) :
    (cfg.path = none →
      reload parse cfg =
        (.panicked "called Option::unwrap on a None value", cfg, [])) ∧
    (∀ p, cfg.path = some p → ∀ m, (reload parse cfg).1 ≠ .panicked m) := by
  constructor
  · intro h
    simp [reload, h]
  · intro p hp m
    simp only [reload, hp]
    cases parse p <;> simp

theorem c10_reload_unwrap_panic_witness :
    (reload (fun _ => .ok sample_config) pathless_config =
      (.panicked "called Option::unwrap on a None value", pathless_config, [])) ∧
    (reload (fun _ => .ok other_config) sample_config).1 ≠
      .panicked "called Option::unwrap on a None value" :=
  ⟨(c10_reload_unwrap_panic (fun _ => .ok sample_config) pathless_config).1 rfl,
   (c10_reload_unwrap_panic (fun _ => .ok other_config) sample_config).2
     "/etc/pgcat.toml" rfl "called Option::unwrap on a None value"⟩

end Pgcat
